import Mathlib

/-!
Shallow embedding of `src/IMU.py` (Pi_IMU repository): sensor state and
axis decoding, the background acquisition loop `_take_measurements`
(modelled as an event trace over an abstract environment supplying bus
readings and the shared exit flag), and the supervisor
`end_measurements_processes` (modelled as a list of supervisor actions).
-/

namespace PiIMU

/-- Modelled from the spec: the Register Map is external (the source imports
the chip constants `ACC_ADDRESS`, `OUT_X_L_A`, ... from `LSM9DS0`, a file not
in the repository core); it supplies per-sensor device addresses and, per
axis, a pair of output registers (low byte, high byte), opaque to the core. -/
structure RegisterMap where
  ACC_ADDRESS : Nat
  MAG_ADDRESS : Nat
  GYR_ADDRESS : Nat
  OUT_X_L_A : Nat
  OUT_X_H_A : Nat
  OUT_Y_L_A : Nat
  OUT_Y_H_A : Nat
  OUT_Z_L_A : Nat
  OUT_Z_H_A : Nat
  OUT_X_L_M : Nat
  OUT_X_H_M : Nat
  OUT_Y_L_M : Nat
  OUT_Y_H_M : Nat
  OUT_Z_L_M : Nat
  OUT_Z_H_M : Nat
  OUT_X_L_G : Nat
  OUT_X_H_G : Nat
  OUT_Y_L_G : Nat
  OUT_Y_H_G : Nat
  OUT_Z_L_G : Nat
  OUT_Z_H_G : Nat

/-- Errors raised by the axis readers: `SensorInactiveError` (carrying the
sensor name passed to the constructor) and Python's `ValueError` (carrying
its message). -/
inductive Err where
  | sensorInactive (sensor : String)
  | valueError (msg : String)
deriving DecidableEq

/-- The message built by `SensorInactiveError.__init__` in `IMU.py`. -/
def inactiveMessage (sensor : String) : String :=
  "Attempted to read data from the " ++ sensor ++
    " failed due to inactive sensor"

/-- The `ValueError` message used by all three axis readers in `IMU.py`. -/
def axisMessage : String :=
  "Expected axis to be 0,1 or 2 corresponding to x,y,z"

/-- The `IMU` object state used by the axis readers: the active flags set by
`setup_default` / `reset_registers`, the register map, and the bus, with
`bus addr reg` standing for a successful `self.bus.read_byte_data(addr, reg)`
returning a byte. -/
structure IMUState where
  bus : Nat → Nat → Nat
  regmap : RegisterMap
  acc_active : Bool
  gyr_active : Bool
  mag_active : Bool

/-- `IMU.readAccAxis` from `IMU.py`: checks `self._acc_active`, selects the
axis register pair (else `ValueError`), reads low then high byte, combines as
`acc_l | acc_h << 8` and decodes two's complement by subtracting 65536 when
the combination is not below 32768. -/
def readAccAxis (imu : IMUState) (axis : Int) : Except Err Int :=
  if imu.acc_active = false then
    Except.error (Err.sensorInactive "Accelerometer")
  else
    match
      (if axis = 0 then Except.ok (imu.regmap.OUT_X_L_A, imu.regmap.OUT_X_H_A)
       else if axis = 1 then
         Except.ok (imu.regmap.OUT_Y_L_A, imu.regmap.OUT_Y_H_A)
       else if axis = 2 then
         Except.ok (imu.regmap.OUT_Z_L_A, imu.regmap.OUT_Z_H_A)
       else Except.error (Err.valueError axisMessage) :
        Except Err (Nat × Nat)) with
    | Except.error e => Except.error e
    | Except.ok (register_l, register_h) =>
      let acc_l := imu.bus imu.regmap.ACC_ADDRESS register_l
      let acc_h := imu.bus imu.regmap.ACC_ADDRESS register_h
      let acc_combined := Nat.lor acc_l (acc_h <<< 8)
      Except.ok (if acc_combined < 32768 then (acc_combined : Int)
                 else (acc_combined : Int) - 65536)

/-- `IMU.readMagAxis` from `IMU.py`: checks `self._mag_active` but raises
`SensorInactiveError('Accelerometer')` (the sensor-name string in the source
is `'Accelerometer'`, not `'Magnetometer'`); otherwise as `readAccAxis` on
the magnetometer registers. -/
def readMagAxis (imu : IMUState) (axis : Int) : Except Err Int :=
  if imu.mag_active = false then
    Except.error (Err.sensorInactive "Accelerometer")
  else
    match
      (if axis = 0 then Except.ok (imu.regmap.OUT_X_L_M, imu.regmap.OUT_X_H_M)
       else if axis = 1 then
         Except.ok (imu.regmap.OUT_Y_L_M, imu.regmap.OUT_Y_H_M)
       else if axis = 2 then
         Except.ok (imu.regmap.OUT_Z_L_M, imu.regmap.OUT_Z_H_M)
       else Except.error (Err.valueError axisMessage) :
        Except Err (Nat × Nat)) with
    | Except.error e => Except.error e
    | Except.ok (register_l, register_h) =>
      let mag_l := imu.bus imu.regmap.MAG_ADDRESS register_l
      let mag_h := imu.bus imu.regmap.MAG_ADDRESS register_h
      let mag_combined := Nat.lor mag_l (mag_h <<< 8)
      Except.ok (if mag_combined < 32768 then (mag_combined : Int)
                 else (mag_combined : Int) - 65536)

/-- `IMU.readGyrAxis` from `IMU.py`: the source checks `self._acc_active`
(not `self._gyr_active`) and raises `SensorInactiveError('Accelerometer')`;
otherwise as `readAccAxis` on the gyroscope registers. -/
def readGyrAxis (imu : IMUState) (axis : Int) : Except Err Int :=
  if imu.acc_active = false then
    Except.error (Err.sensorInactive "Accelerometer")
  else
    match
      (if axis = 0 then Except.ok (imu.regmap.OUT_X_L_G, imu.regmap.OUT_X_H_G)
       else if axis = 1 then
         Except.ok (imu.regmap.OUT_Y_L_G, imu.regmap.OUT_Y_H_G)
       else if axis = 2 then
         Except.ok (imu.regmap.OUT_Z_L_G, imu.regmap.OUT_Z_H_G)
       else Except.error (Err.valueError axisMessage) :
        Except Err (Nat × Nat)) with
    | Except.error e => Except.error e
    | Except.ok (register_l, register_h) =>
      let gyr_l := imu.bus imu.regmap.GYR_ADDRESS register_l
      let gyr_h := imu.bus imu.regmap.GYR_ADDRESS register_h
      let gyr_combined := Nat.lor gyr_l (gyr_h <<< 8)
      Except.ok (if gyr_combined < 32768 then (gyr_combined : Int)
                 else (gyr_combined : Int) - 65536)

/-- The two's-complement decoding the three readers apply to the combined
16-bit unsigned value. -/
def decode16 (v : Nat) : Int :=
  if v < 32768 then (v : Int) else (v : Int) - 65536

/-- `IMU.writeReg` from `IMU.py`: issues `bus.write_byte_data` and then
`return -1`. The bus write is modelled as appending the
(address, register, value) triple to a log of successful writes. -/
def writeReg (writes : List (Nat × Nat × Nat)) (address register value : Nat) :
    List (Nat × Nat × Nat) × Int :=
  (writes ++ [(address, register, value)], -1)

/-- A three-axis reading as produced by `readAcc` / `readMag` / `readGyr`
(a dictionary with keys x, y, z in the source). -/
structure Reading where
  x : Int
  y : Int
  z : Int
deriving DecidableEq

/-- The three sensor kinds. -/
inductive SensorKind where
  | accelerometer
  | magnetometer
  | gyroscope
deriving DecidableEq

/-- Observable effects of the acquisition loop `_take_measurements`:
opening an output file, a (three-axis) sensor read, writing a line, a
`pipe.send`, a locked read of the shared `exit_flag`, the `time.sleep`,
a `pipe.close`, and the `print` in the exception handler. -/
inductive Event where
  | fileOpen (name : String)
  | readSensor (kind : SensorKind) (r : Reading)
  | fileWrite (line : String)
  | pipeSend (payload : Reading × Reading × Reading)
  | flagRead (v : Nat)
  | sleep
  | pipeClose
  | printMsg (msg : String)
deriving DecidableEq

/-- The environment a running `_take_measurements` process observes:
`flagSched r` is the value of the shared `exit_flag` at the r-th locked
read (read 0 is the initial one before the loop), `sample k` is the
(accelerometer, magnetometer, gyroscope) triple the bus yields for the
k-th sample, and `hwFail k` says the k-th sample's first bus transaction
raises a hardware I/O error. -/
structure Env where
  flagSched : Nat → Nat
  sample : Nat → Reading × Reading × Reading
  hwFail : Nat → Bool

/-- The sensor active flags the forked process inherits from `self`. -/
structure Flags where
  accActive : Bool
  magActive : Bool
  gyrActive : Bool

/-- How one sample body ends: normally (with the freshly read flag value),
with a `SensorInactiveError` (carrying its message), or with an uncaught
hardware I/O error. -/
inductive SampleResult where
  | ok (lf : Nat)
  | sensorErr (msg : String)
  | hwErr
deriving DecidableEq

/-- The line `file_output` built in `_take_measurements`: the format string
is `Acc: .. Gyr: .. Mag: ..` and the arguments are the accelerometer,
gyroscope, magnetometer values in that order (even though the reads occur
acc, mag, gyr). -/
def sampleLine (acc mag gyr : Reading) : String :=
  "Acc: " ++ toString acc.x ++ " " ++ toString acc.y ++ " " ++
    toString acc.z ++ " Gyr: " ++ toString gyr.x ++ " " ++ toString gyr.y ++
    " " ++ toString gyr.z ++ " Mag: " ++ toString mag.x ++ " " ++
    toString mag.y ++ " " ++ toString mag.z ++ "\n"

/-- One iteration of the inner `for i in range(0, cut*freq)` loop of
`_take_measurements`: open (and truncate) the file named
`'{}_{}.txt'.format(file_name, n)` with `n = i`, then inside the `with`
block call `readAcc` (which raises `SensorInactiveError('Accelerometer')`
when `_acc_active` is false), `readMag` (which raises the same error — the
source names the accelerometer — when `_mag_active` is false), `readGyr`
(whose guard re-checks `_acc_active`, necessarily true here), write the
formatted line, `pipe.send([acc, mag, gyr])`, re-read `exit_flag` under its
lock, and `time.sleep(1/freq)`. `i` is the file index within the current
while-iteration, `cnt` the global sample index, `r` the flag-read index. -/
def oneSample (flags : Flags) (env : Env) (file_name : String)
    (i cnt r : Nat) : List Event × SampleResult :=
  let openEv := Event.fileOpen (file_name ++ "_" ++ toString i ++ ".txt")
  if flags.accActive = false then
    ([openEv], SampleResult.sensorErr (inactiveMessage "Accelerometer"))
  else if env.hwFail cnt then
    ([openEv], SampleResult.hwErr)
  else
    let t := env.sample cnt
    let acc := t.1
    if flags.magActive = false then
      ([openEv, Event.readSensor SensorKind.accelerometer acc],
       SampleResult.sensorErr (inactiveMessage "Accelerometer"))
    else
      let mag := t.2.1
      let gyr := t.2.2
      let lf := env.flagSched r
      ([openEv, Event.readSensor SensorKind.accelerometer acc,
        Event.readSensor SensorKind.magnetometer mag,
        Event.readSensor SensorKind.gyroscope gyr,
        Event.fileWrite (sampleLine acc mag gyr),
        Event.pipeSend (acc, mag, gyr),
        Event.flagRead lf, Event.sleep],
       SampleResult.ok lf)

/-- How the inner `for` loop ends: all iterations done (with updated global
sample index, flag-read index and `local_flag`), or one of the two error
exits. -/
inductive ForResult where
  | done (cnt r lf : Nat)
  | sensorErr (msg : String)
  | hwErr
deriving DecidableEq

/-- The inner `for i in range(0, cut*freq)` loop: runs `rem` more
iterations starting at file index `i`; note it never tests `local_flag`,
it only carries the value the samples read. -/
def forLoop (flags : Flags) (env : Env) (file_name : String) :
    Nat → Nat → Nat → Nat → Nat → List Event × ForResult
  | 0, _, cnt, r, lf => ([], ForResult.done cnt r lf)
  | rem + 1, i, cnt, r, _ =>
    match oneSample flags env file_name i cnt r with
    | (es, SampleResult.ok lf) =>
      let rest := forLoop flags env file_name rem (i + 1) (cnt + 1) (r + 1) lf
      (es ++ rest.1, rest.2)
    | (es, SampleResult.sensorErr m) => (es, ForResult.sensorErr m)
    | (es, SampleResult.hwErr) => (es, ForResult.hwErr)

/-- How a run of `_take_measurements` ends: `finished` (the while loop
exited because `local_flag` became nonzero and `pipe.close()` ran),
`sensorInactive` (a `SensorInactiveError` reached the task boundary),
`uncaughtError` (any other exception propagated), or `running` (the loop
had not terminated within the given fuel). -/
inductive Outcome where
  | finished
  | sensorInactive (msg : String)
  | uncaughtError
  | running
deriving DecidableEq

/-- The `while local_flag == 0` loop of `_take_measurements`, with `fuel`
bounding the number of while-iterations observed. When `cut` is `none` the
body does nothing at all (the `if cut is not None` guard encloses the whole
body), so `local_flag` is never re-read. When `cut` is set, `n` is reset to
0 and the inner for loop runs `cut * freq` iterations. On exit,
`pipe.close()`. -/
def whileLoop (flags : Flags) (env : Env) (file_name : String)
    (cut : Option Nat) (freq : Nat) :
    Nat → Nat → Nat → Nat → List Event × Outcome
  | 0, _, _, _ => ([], Outcome.running)
  | fuel + 1, cnt, r, lf =>
    if lf ≠ 0 then ([Event.pipeClose], Outcome.finished)
    else
      match cut with
      | none => whileLoop flags env file_name none freq fuel cnt r lf
      | some c =>
        match forLoop flags env file_name (c * freq) 0 cnt r lf with
        | (es, ForResult.done cnt' r' lf') =>
          let rest := whileLoop flags env file_name (some c) freq fuel cnt' r' lf'
          (es ++ rest.1, rest.2)
        | (es, ForResult.sensorErr m) => (es, Outcome.sensorInactive m)
        | (es, ForResult.hwErr) => (es, Outcome.uncaughtError)

/-- `IMU._take_measurements` from `IMU.py`: read `exit_flag` once under its
lock, run the while loop, and catch only `SensorInactiveError` at the task
boundary, printing `e.message`; every other exception propagates with no
`pipe.close()` and no diagnostic. -/
def take_measurements (fuel : Nat) (flags : Flags) (env : Env) (freq : Nat)
    (file_name : String) (cut : Option Nat) : List Event × Outcome :=
  let lf := env.flagSched 0
  let res := whileLoop flags env file_name cut freq fuel 0 1 lf
  match res.2 with
  | Outcome.sensorInactive m => (res.1 ++ [Event.printMsg m], res.2)
  | _ => res

/-- Event classifiers used to state trace properties. -/
def isSend : Event → Bool
  | Event.pipeSend _ => true
  | _ => false

def isClose : Event → Bool
  | Event.pipeClose => true
  | _ => false

def isPrint : Event → Bool
  | Event.printMsg _ => true
  | _ => false

/-- A flag read that observed a cancellation request (nonzero value). -/
def isCancelRead : Event → Bool
  | Event.flagRead v => v != 0
  | _ => false

/-- The file names opened along a trace, in order. -/
def fileOpens (es : List Event) : List String :=
  es.filterMap fun e =>
    match e with
    | Event.fileOpen s => some s
    | _ => none

/-- Number of samples sent on the pipe strictly after the first flag read
that observed a cancellation request. -/
def sendsAfterCancel (es : List Event) : Nat :=
  List.countP isSend ((es.dropWhile fun e => ! isCancelRead e).drop 1)

/-- Number of samples sent on the pipe before the named file is first
opened. -/
def sendsBefore (es : List Event) (name : String) : Nat :=
  List.countP isSend (es.takeWhile fun e => e ≠ Event.fileOpen name)

/-- Actions performed by `end_measurements_processes`: the locked
`flag.value = 1` update, the blocking `process.join()` (carrying no status
and no timeout in the source), and the `print('IMU Process {i} joined')`
report of the index. -/
inductive SupAction where
  | setFlag (flag : Nat)
  | join (idx : Nat)
  | report (idx : Nat)
deriving DecidableEq

/-- `IMU.end_measurements_processes` from `IMU.py`: first `for flag in
self._flags` set each flag to 1 under its lock, then `for i, process in
enumerate(self._processes)` join the process and print its index. Flags
and process handles are abstracted to their identifiers; only the action
sequence is modelled. -/
def end_measurements_processes (flags processes : List Nat) :
    List SupAction :=
  flags.map SupAction.setFlag ++
    (processes.enum.flatMap fun ip =>
      [SupAction.join ip.1, SupAction.report ip.1])

def isJoin : SupAction → Bool
  | SupAction.join _ => true
  | _ => false

def isSetFlag : SupAction → Bool
  | SupAction.setFlag _ => true
  | _ => false

/-- A register map with pairwise distinct registers, for concrete runs. -/
def testMap : RegisterMap :=
  { ACC_ADDRESS := 30, MAG_ADDRESS := 30, GYR_ADDRESS := 106,
    OUT_X_L_A := 40, OUT_X_H_A := 41, OUT_Y_L_A := 42, OUT_Y_H_A := 43,
    OUT_Z_L_A := 44, OUT_Z_H_A := 45,
    OUT_X_L_M := 8, OUT_X_H_M := 9, OUT_Y_L_M := 10, OUT_Y_H_M := 11,
    OUT_Z_L_M := 12, OUT_Z_H_M := 13,
    OUT_X_L_G := 40, OUT_X_H_G := 41, OUT_Y_L_G := 42, OUT_Y_H_G := 43,
    OUT_Z_L_G := 44, OUT_Z_H_G := 45 }

/-- A concrete IMU state with every sensor inactive and a zero bus. -/
def imuAllOff : IMUState :=
  { bus := fun _ _ => 0, regmap := testMap,
    acc_active := false, gyr_active := false, mag_active := false }

/-- A concrete IMU state with only the gyroscope configured active. -/
def imuGyrOnly : IMUState :=
  { bus := fun _ _ => 0, regmap := testMap,
    acc_active := false, gyr_active := true, mag_active := false }

/-- A concrete IMU state with the gyroscope inactive but the accelerometer
active. -/
def imuGyrOff : IMUState :=
  { bus := fun _ _ => 0, regmap := testMap,
    acc_active := true, gyr_active := false, mag_active := true }

/-- A concrete IMU state with every sensor active. -/
def imuAllOn : IMUState :=
  { bus := fun _ _ => 0, regmap := testMap,
    acc_active := true, gyr_active := true, mag_active := true }

/-- All three sensors active, as after `setup_default`. -/
def flagsAllOn : Flags :=
  { accActive := true, magActive := true, gyrActive := true }

/-- Accelerometer inactive. -/
def flagsAccOff : Flags :=
  { accActive := false, magActive := true, gyrActive := true }

/-- A fixed sample triple used by the concrete environments. -/
def envAfterOne : Env :=
  { flagSched := fun r => if r = 0 then 0 else 1,
    sample := fun _ =>
      ({ x := 1, y := 2, z := 3 }, { x := 4, y := 5, z := 6 },
       { x := 7, y := 8, z := 9 }),
    hwFail := fun _ => false }

/-- An environment in which cancellation is never requested. -/
def envNeverCancel : Env :=
  { flagSched := fun _ => 0,
    sample := fun _ =>
      ({ x := 1, y := 2, z := 3 }, { x := 4, y := 5, z := 6 },
       { x := 7, y := 8, z := 9 }),
    hwFail := fun _ => false }

/-- An environment whose very first bus transaction raises a hardware I/O
error. -/
def envHwFail : Env :=
  { flagSched := fun _ => 0,
    sample := fun _ =>
      ({ x := 1, y := 2, z := 3 }, { x := 4, y := 5, z := 6 },
       { x := 7, y := 8, z := 9 }),
    hwFail := fun _ => true }

/-- An IMU state whose bus returns 255 for every register, all sensors
active. -/
def imuFF : IMUState :=
  { bus := fun _ _ => 255, regmap := testMap,
    acc_active := true, gyr_active := true, mag_active := true }

/-- C1: for every pair of bus bytes low, high in 0..255, the axis-read
operations (readAccAxis, readMagAxis, readGyrAxis) combine them as
low | (high << 8) into an unsigned 16-bit value v and return v if
v < 32768, else v − 65536; in particular v = 32767 decodes to 32767,
v = 32768 to −32768, v = 65535 to −1, and v = 0 to 0, so every decoded
result lies in −32768…32767. -/
theorem c1_axis_decoding (imu : IMUState) (low high : Nat)
    (hlow : low < 256) (hhigh : high < 256)
    (hacc : imu.acc_active = true) (hmag : imu.mag_active = true)
    (haL : imu.bus imu.regmap.ACC_ADDRESS imu.regmap.OUT_X_L_A = low)
    (haH : imu.bus imu.regmap.ACC_ADDRESS imu.regmap.OUT_X_H_A = high)
    (hmL : imu.bus imu.regmap.MAG_ADDRESS imu.regmap.OUT_X_L_M = low)
    (hmH : imu.bus imu.regmap.MAG_ADDRESS imu.regmap.OUT_X_H_M = high)
    (hgL : imu.bus imu.regmap.GYR_ADDRESS imu.regmap.OUT_X_L_G = low)
    (hgH : imu.bus imu.regmap.GYR_ADDRESS imu.regmap.OUT_X_H_G = high) :
    readAccAxis imu 0 = Except.ok (decode16 (Nat.lor low (high <<< 8))) ∧
    readMagAxis imu 0 = Except.ok (decode16 (Nat.lor low (high <<< 8))) ∧
    readGyrAxis imu 0 = Except.ok (decode16 (Nat.lor low (high <<< 8))) ∧
    Nat.lor low (high <<< 8) < 65536 ∧
    decode16 32767 = 32767 ∧ decode16 32768 = -32768 ∧
    decode16 65535 = -1 ∧ decode16 0 = 0 ∧
    -32768 ≤ decode16 (Nat.lor low (high <<< 8)) ∧
    decode16 (Nat.lor low (high <<< 8)) ≤ 32767 := by
  have hv : Nat.lor low (high <<< 8) < 65536 := by
    have h1 : low < 2 ^ 16 := lt_of_lt_of_le hlow (by norm_num)
    have h2 : high <<< 8 < 2 ^ 16 := by
      rw [Nat.shiftLeft_eq]
      calc high * 2 ^ 8 < 256 * 2 ^ 8 :=
            Nat.mul_lt_mul_of_lt_of_le hhigh (le_refl _) (by norm_num)
        _ = 2 ^ 16 := by norm_num
    have := Nat.bitwise_lt_two_pow (f := or) h1 h2
    simpa using this
  refine ⟨?_, ?_, ?_, hv, by decide, by decide, by decide, by decide, ?_, ?_⟩
  · simp [readAccAxis, hacc, haL, haH, decode16]
  · simp [readMagAxis, hmag, hmL, hmH, decode16]
  · simp [readGyrAxis, hacc, hgL, hgH, decode16]
  · unfold decode16; split <;> omega
  · unfold decode16; split <;> omega

/-- Witness for C1 at low = high = 255 on a concrete IMU state. -/
theorem c1_axis_decoding_witness :
    readAccAxis imuFF 0 = Except.ok (decode16 (Nat.lor 255 (255 <<< 8))) ∧
    readMagAxis imuFF 0 = Except.ok (decode16 (Nat.lor 255 (255 <<< 8))) ∧
    readGyrAxis imuFF 0 = Except.ok (decode16 (Nat.lor 255 (255 <<< 8))) ∧
    Nat.lor 255 (255 <<< 8) < 65536 ∧
    decode16 32767 = 32767 ∧ decode16 32768 = -32768 ∧
    decode16 65535 = -1 ∧ decode16 0 = 0 ∧
    -32768 ≤ decode16 (Nat.lor 255 (255 <<< 8)) ∧
    decode16 (Nat.lor 255 (255 <<< 8)) ≤ 32767 :=
  c1_axis_decoding imuFF 255 255 (by decide) (by decide) rfl rfl
    rfl rfl rfl rfl rfl rfl

/-- C4: the claim says each axis read consults only its own kind's active
flag and reports that same kind on failure. In the source, `readGyrAxis`
consults `_acc_active` (so a gyroscope read with the accelerometer flag
down fails even though the gyroscope is active, and a gyroscope read with
only the gyroscope flag down succeeds), and `readMagAxis` reports
`'Accelerometer'` in its `SensorInactiveError`. -/
theorem c4_active_flag_code_bug :
    readGyrAxis imuGyrOnly 0 =
      Except.error (Err.sensorInactive "Accelerometer") ∧
    readGyrAxis imuGyrOff 0 = Except.ok 0 ∧
    imuGyrOff.gyr_active = false ∧
    readMagAxis imuAllOff 0 =
      Except.error (Err.sensorInactive "Accelerometer") :=
  ⟨rfl, rfl, rfl, rfl⟩

/-- C5 counterexample: with the accelerometer inactive, `readAccAxis 5`
fails with `SensorInactiveError`, not with the invalid-axis `ValueError`
the claim promises regardless of the active flag. -/
theorem c5_invalid_axis_counterexample :
    readAccAxis imuAllOff 5 =
      Except.error (Err.sensorInactive "Accelerometer") ∧
    Err.sensorInactive "Accelerometer" ≠ Err.valueError axisMessage :=
  ⟨rfl, by decide⟩

/-- C5 (amended): an axis argument outside 0,1,2 fails with the
invalid-axis `ValueError` provided the active flag the reader consults
(`_acc_active` for `readAccAxis` and `readGyrAxis`, `_mag_active` for
`readMagAxis`) is true; when that flag is false the `SensorInactiveError`
is raised first instead, because the active check precedes the axis
check. -/
theorem c5_invalid_axis_amended (imu : IMUState) (axis : Int)
    (h0 : axis ≠ 0) (h1 : axis ≠ 1) (h2 : axis ≠ 2) :
    (imu.acc_active = true →
      readAccAxis imu axis = Except.error (Err.valueError axisMessage)) ∧
    (imu.mag_active = true →
      readMagAxis imu axis = Except.error (Err.valueError axisMessage)) ∧
    (imu.acc_active = true →
      readGyrAxis imu axis = Except.error (Err.valueError axisMessage)) ∧
    (imu.acc_active = false →
      readAccAxis imu axis =
        Except.error (Err.sensorInactive "Accelerometer")) ∧
    (imu.mag_active = false →
      readMagAxis imu axis =
        Except.error (Err.sensorInactive "Accelerometer")) ∧
    (imu.acc_active = false →
      readGyrAxis imu axis =
        Except.error (Err.sensorInactive "Accelerometer")) := by
  refine ⟨fun h => ?_, fun h => ?_, fun h => ?_,
    fun h => ?_, fun h => ?_, fun h => ?_⟩
  · simp [readAccAxis, h, h0, h1, h2]
  · simp [readMagAxis, h, h0, h1, h2]
  · simp [readGyrAxis, h, h0, h1, h2]
  · simp [readAccAxis, h]
  · simp [readMagAxis, h]
  · simp [readGyrAxis, h]

/-- Witness for C5's amended theorem at axis 5 on an all-active state. -/
theorem c5_invalid_axis_witness :
    readAccAxis imuAllOn 5 = Except.error (Err.valueError axisMessage) :=
  (c5_invalid_axis_amended imuAllOn 5 (by decide) (by decide)
    (by decide)).1 rfl

/-- C10: `writeReg` returns the constant −1 even on a successful write
(the modelled success path appends the write to the bus log). -/
theorem c10_writeReg_returns_neg_one (writes : List (Nat × Nat × Nat))
    (address register value : Nat) :
    (writeReg writes address register value).2 = -1 ∧
    (writeReg writes address register value).1 =
      writes ++ [(address, register, value)] :=
  ⟨rfl, rfl⟩

/-- C2: the claim says all `rotationPeriod * frequency` samples of segment
k go to the single file `{base}_{k}.txt` before segment k+1's file is
opened (20 samples per file at frequency 10, rotation period 2). In the
source, `n` is incremented on every iteration of the inner loop, so each
sample gets its own file: with frequency 10 and cut 2, exactly one sample
is sent before `imu_1.txt` is opened, the first three files opened are
`imu_0.txt`, `imu_1.txt`, `imu_2.txt`, and the 20 samples of the first
while-iteration span 20 distinct files. -/
theorem c2_rotation_code_bug :
    sendsBefore (take_measurements 3 flagsAllOn envAfterOne 10 "imu"
      (some 2)).1 "imu_1.txt" = 1 ∧
    (fileOpens (take_measurements 3 flagsAllOn envAfterOne 10 "imu"
      (some 2)).1).take 3 = ["imu_0.txt", "imu_1.txt", "imu_2.txt"] ∧
    (fileOpens (take_measurements 3 flagsAllOn envAfterOne 10 "imu"
      (some 2)).1).length = 20 ∧
    List.countP isSend (take_measurements 3 flagsAllOn envAfterOne 10 "imu"
      (some 2)).1 = 20 :=
  ⟨rfl, rfl, rfl, rfl⟩

/-- The `while local_flag == 0` loop with `cut = None` does nothing and
never re-reads the flag: whatever the fuel, no event is produced and the
loop is still running. -/
theorem whileLoop_none (flags : Flags) (env : Env) (file_name : String)
    (freq : Nat) :
    ∀ fuel cnt r, whileLoop flags env file_name none freq fuel cnt r 0 =
      ([], Outcome.running) := by
  intro fuel
  induction fuel with
  | zero => intro cnt r; rfl
  | succ f ih => intro cnt r; simpa [whileLoop] using ih cnt r

/-- C3: the claim says a task started without a rotation period still
samples at the configured frequency, with a line per sample in a single
output file. In the source the whole loop body sits under
`if cut is not None`, so with `cut = None` and the flag initially 0 the
task loops forever producing no events at all: no file is opened, no
sample is read or sent, and the flag is never re-read. -/
theorem c3_no_rotation_code_bug (fuel : Nat) (flags : Flags) (env : Env)
    (freq : Nat) (file_name : String) (h0 : env.flagSched 0 = 0) :
    take_measurements fuel flags env freq file_name none =
      ([], Outcome.running) := by
  simp [take_measurements, h0, whileLoop_none]

/-- Witness for C3 at frequency 5 with fuel 7. -/
theorem c3_no_rotation_witness :
    take_measurements 7 flagsAllOn envNeverCancel 5 "f" none =
      ([], Outcome.running) :=
  c3_no_rotation_code_bug 7 flagsAllOn envNeverCancel 5 "f" rfl

/-- With all consulted flags active and no hardware failure, the inner
`for` loop always runs all `rem` remaining iterations: it never tests
`local_flag`, produces one `pipe.send` per iteration and no `pipe.close`,
and ends carrying the flag value read by its last sample. -/
theorem forLoop_ok (flags : Flags) (env : Env) (file_name : String)
    (hacc : flags.accActive = true) (hmag : flags.magActive = true)
    (hhw : ∀ k, env.hwFail k = false) :
    ∀ rem i cnt r lf, ∃ es,
      forLoop flags env file_name rem i cnt r lf =
        (es, ForResult.done (cnt + rem) (r + rem)
          (if rem = 0 then lf else env.flagSched (r + rem - 1))) ∧
      List.countP isSend es = rem ∧ List.countP isClose es = 0 := by
  intro rem
  induction rem with
  | zero =>
    intro i cnt r lf
    exact ⟨[], by simp [forLoop], rfl, rfl⟩
  | succ m ih =>
    intro i cnt r lf
    obtain ⟨es, heq, hsend, hclose⟩ :=
      ih (i + 1) (cnt + 1) (r + 1) (env.flagSched r)
    have hone : oneSample flags env file_name i cnt r =
        ([Event.fileOpen (file_name ++ "_" ++ toString i ++ ".txt"),
          Event.readSensor SensorKind.accelerometer (env.sample cnt).1,
          Event.readSensor SensorKind.magnetometer (env.sample cnt).2.1,
          Event.readSensor SensorKind.gyroscope (env.sample cnt).2.2,
          Event.fileWrite (sampleLine (env.sample cnt).1 (env.sample cnt).2.1
            (env.sample cnt).2.2),
          Event.pipeSend ((env.sample cnt).1, (env.sample cnt).2.1,
            (env.sample cnt).2.2),
          Event.flagRead (env.flagSched r), Event.sleep],
         SampleResult.ok (env.flagSched r)) := by
      simp [oneSample, hacc, hmag, hhw cnt]
    have h1 : cnt + 1 + m = cnt + (m + 1) := by omega
    have h2 : r + 1 + m = r + (m + 1) := by omega
    have h3 : (if m = 0 then env.flagSched r
        else env.flagSched (r + 1 + m - 1)) =
        (if m + 1 = 0 then lf else env.flagSched (r + (m + 1) - 1)) := by
      rcases Nat.eq_zero_or_pos m with hm | hm
      · subst hm; simp
      · have hm' : m ≠ 0 := by omega
        have harg : r + 1 + m - 1 = r + (m + 1) - 1 := by omega
        simp [hm', harg]
    refine ⟨[Event.fileOpen (file_name ++ "_" ++ toString i ++ ".txt"),
      Event.readSensor SensorKind.accelerometer (env.sample cnt).1,
      Event.readSensor SensorKind.magnetometer (env.sample cnt).2.1,
      Event.readSensor SensorKind.gyroscope (env.sample cnt).2.2,
      Event.fileWrite (sampleLine (env.sample cnt).1 (env.sample cnt).2.1
        (env.sample cnt).2.2),
      Event.pipeSend ((env.sample cnt).1, (env.sample cnt).2.1,
        (env.sample cnt).2.2),
      Event.flagRead (env.flagSched r), Event.sleep] ++ es, ?_, ?_, ?_⟩
    · rw [forLoop, hone]
      simp only [heq]
      rw [h3, h1, h2]
    · simp [List.countP_append, hsend, isSend]
    · simp [List.countP_append, hclose, isClose]

/-- C6 counterexample: at frequency 10 and rotation period 2, with the
cancellation flag raised at the very first re-check (after one sample),
the task still sends 19 further samples — the inner loop never acts on
the flag — before closing the channel once; the claim allows at most one
further sample (one sampling period). -/
theorem c6_cancellation_counterexample :
    sendsAfterCancel (take_measurements 3 flagsAllOn envAfterOne 10 "w6"
      (some 2)).1 = 19 ∧
    1 < sendsAfterCancel (take_measurements 3 flagsAllOn envAfterOne 10 "w6"
      (some 2)).1 ∧
    List.countP isClose (take_measurements 3 flagsAllOn envAfterOne 10 "w6"
      (some 2)).1 = 1 :=
  ⟨rfl, by decide, rfl⟩

/-- C6 (amended): cancellation is observed only at the `while` check, once
per segment. With a rotation period set (`cut * freq > 0`) and the flag
raised at every re-read from the first on, the task still completes the
whole current segment of `cut * freq` samples, then stops gracefully and
closes the channel exactly once. (Without a rotation period the loop body
is empty and a cancellation requested after startup is never observed.) -/
theorem c6_cancellation_amended (flags : Flags) (env : Env)
    (freq cut f : Nat) (file_name : String)
    (hacc : flags.accActive = true) (hmag : flags.magActive = true)
    (hhw : ∀ k, env.hwFail k = false) (h0 : env.flagSched 0 = 0)
    (hcancel : ∀ r, 1 ≤ r → env.flagSched r ≠ 0)
    (hpos : 0 < cut * freq) :
    (take_measurements (f + 2) flags env freq file_name (some cut)).2 =
      Outcome.finished ∧
    List.countP isSend (take_measurements (f + 2) flags env freq
      file_name (some cut)).1 = cut * freq ∧
    List.countP isClose (take_measurements (f + 2) flags env freq
      file_name (some cut)).1 = 1 := by
  obtain ⟨es, heq, hsend, hclose⟩ :=
    forLoop_ok flags env file_name hacc hmag hhw (cut * freq) 0 0 1 0
  have hif : (if cut * freq = 0 then (0:Nat)
      else env.flagSched (1 + cut * freq - 1)) =
      env.flagSched (cut * freq) := by
    have h1 : cut * freq ≠ 0 := by omega
    have h2 : 1 + cut * freq - 1 = cut * freq := by omega
    simp [h1, h2]
  rw [hif] at heq
  have hflag : env.flagSched (cut * freq) ≠ 0 := hcancel _ (by omega)
  have hf2 : f + 2 = f + 1 + 1 := rfl
  rw [hf2]
  refine ⟨?_, ?_, ?_⟩ <;>
    simp [take_measurements, whileLoop, h0, heq, hflag,
      List.countP_append, hsend, hclose, isSend, isClose]

/-- Witness for C6's amended theorem: frequency 10, rotation period 2,
cancellation requested at the first re-check. -/
theorem c6_cancellation_witness :
    (take_measurements (1 + 2) flagsAllOn envAfterOne 10 "w" (some 2)).2 =
      Outcome.finished ∧
    List.countP isSend (take_measurements (1 + 2) flagsAllOn envAfterOne 10
      "w" (some 2)).1 = 2 * 10 ∧
    List.countP isClose (take_measurements (1 + 2) flagsAllOn envAfterOne 10
      "w" (some 2)).1 = 1 :=
  c6_cancellation_amended flagsAllOn envAfterOne 10 2 1 "w" rfl rfl
    (fun _ => rfl) rfl
    (fun r hr => by
      have h : r ≠ 0 := by omega
      simp [envAfterOne, h])
    (by decide)

/-- C7: inside the acquisition loop a `SensorInactiveError` terminates the
task: it is caught at the task boundary, the diagnostic `e.message` is
printed, and the task exits without retry (a single file open, no second
sample attempt) and without forwarding anything through the channel (no
send, no close). Any other error — here a hardware I/O failure on the
first bus read — is not caught: the run ends `uncaughtError` with neither
a diagnostic nor an explicit channel close. -/
theorem c7_error_handling (env : Env) (freq : Nat) (file_name : String)
    (cut fuel : Nat) (h0 : env.flagSched 0 = 0) (hpos : 0 < cut * freq)
    (hfuel : 0 < fuel) :
    (∀ flags : Flags, flags.accActive = false →
      take_measurements fuel flags env freq file_name (some cut) =
        ([Event.fileOpen (file_name ++ "_" ++ toString (0:Nat) ++ ".txt"),
          Event.printMsg (inactiveMessage "Accelerometer")],
         Outcome.sensorInactive (inactiveMessage "Accelerometer"))) ∧
    (∀ flags : Flags, flags.accActive = true → flags.magActive = false →
      env.hwFail 0 = false →
      take_measurements fuel flags env freq file_name (some cut) =
        ([Event.fileOpen (file_name ++ "_" ++ toString (0:Nat) ++ ".txt"),
          Event.readSensor SensorKind.accelerometer (env.sample 0).1,
          Event.printMsg (inactiveMessage "Accelerometer")],
         Outcome.sensorInactive (inactiveMessage "Accelerometer"))) ∧
    (∀ flags : Flags, flags.accActive = true → env.hwFail 0 = true →
      take_measurements fuel flags env freq file_name (some cut) =
        ([Event.fileOpen (file_name ++ "_" ++ toString (0:Nat) ++ ".txt")],
         Outcome.uncaughtError)) := by
  obtain ⟨k, hk⟩ : ∃ k, cut * freq = k + 1 := ⟨cut * freq - 1, by omega⟩
  obtain ⟨g, hg⟩ : ∃ g, fuel = g + 1 := ⟨fuel - 1, by omega⟩
  subst hg
  refine ⟨fun flags h => ?_, fun flags h hm hw => ?_, fun flags h hw => ?_⟩
  · simp [take_measurements, whileLoop, h0, hk, forLoop, oneSample, h]
  · simp [take_measurements, whileLoop, h0, hk, forLoop, oneSample, h,
      hm, hw]
  · simp [take_measurements, whileLoop, h0, hk, forLoop, oneSample, h, hw]

/-- Witness for C7 in the sensor-inactive case: accelerometer inactive,
frequency 5, rotation period 2. -/
theorem c7_error_handling_witness :
    take_measurements 1 flagsAccOff envNeverCancel 5 "f" (some 2) =
      ([Event.fileOpen ("f" ++ "_" ++ toString (0:Nat) ++ ".txt"),
        Event.printMsg (inactiveMessage "Accelerometer")],
       Outcome.sensorInactive (inactiveMessage "Accelerometer")) :=
  (c7_error_handling envNeverCancel 5 "f" 2 1 rfl (by decide)
    (by decide)).1 flagsAccOff rfl

/-- C9: each sample of the acquisition loop reads the sensors in the order
accelerometer, magnetometer, gyroscope; writes the single line built by
`sampleLine`, whose layout is `Acc: x y z Gyr: x y z Mag: x y z` followed
by a newline with the accelerometer values first, then the gyroscope
values, then the magnetometer values (space-separated integers); and sends
the ordered triple (acc, mag, gyr) on the pipe. -/
theorem c9_sample_format (flags : Flags) (env : Env) (file_name : String)
    (i cnt r : Nat) (hacc : flags.accActive = true)
    (hmag : flags.magActive = true) (hhw : env.hwFail cnt = false) :
    oneSample flags env file_name i cnt r =
      ([Event.fileOpen (file_name ++ "_" ++ toString i ++ ".txt"),
        Event.readSensor SensorKind.accelerometer (env.sample cnt).1,
        Event.readSensor SensorKind.magnetometer (env.sample cnt).2.1,
        Event.readSensor SensorKind.gyroscope (env.sample cnt).2.2,
        Event.fileWrite (sampleLine (env.sample cnt).1 (env.sample cnt).2.1
          (env.sample cnt).2.2),
        Event.pipeSend ((env.sample cnt).1, (env.sample cnt).2.1,
          (env.sample cnt).2.2),
        Event.flagRead (env.flagSched r), Event.sleep],
       SampleResult.ok (env.flagSched r)) ∧
    sampleLine { x := 1, y := 2, z := 3 } { x := 4, y := 5, z := 6 }
      { x := 7, y := 8, z := 9 } = "Acc: 1 2 3 Gyr: 7 8 9 Mag: 4 5 6\n" := by
  constructor
  · simp [oneSample, hacc, hmag, hhw]
  · rfl

/-- Witness for C9 on the concrete never-cancelling environment. -/
theorem c9_sample_format_witness :
    oneSample flagsAllOn envNeverCancel "imu" 0 0 1 =
      ([Event.fileOpen ("imu" ++ "_" ++ toString (0:Nat) ++ ".txt"),
        Event.readSensor SensorKind.accelerometer
          (envNeverCancel.sample 0).1,
        Event.readSensor SensorKind.magnetometer
          (envNeverCancel.sample 0).2.1,
        Event.readSensor SensorKind.gyroscope (envNeverCancel.sample 0).2.2,
        Event.fileWrite (sampleLine (envNeverCancel.sample 0).1
          (envNeverCancel.sample 0).2.1 (envNeverCancel.sample 0).2.2),
        Event.pipeSend ((envNeverCancel.sample 0).1,
          (envNeverCancel.sample 0).2.1, (envNeverCancel.sample 0).2.2),
        Event.flagRead (envNeverCancel.flagSched 1), Event.sleep],
       SampleResult.ok (envNeverCancel.flagSched 1)) ∧
    sampleLine { x := 1, y := 2, z := 3 } { x := 4, y := 5, z := 6 }
      { x := 7, y := 8, z := 9 } = "Acc: 1 2 3 Gyr: 7 8 9 Mag: 4 5 6\n" :=
  c9_sample_format flagsAllOn envNeverCancel "imu" 0 0 1 rfl rfl rfl

/-- The set-flag prefix of the supervisor trace contains no joins. -/
theorem mapSetFlag_filter_isJoin (fs : List Nat) :
    (fs.map SupAction.setFlag).filter isJoin = [] := by
  induction fs with
  | nil => rfl
  | cons a l ih => simp [isJoin, ih]

/-- Filtering the set-flag prefix away from itself leaves nothing. -/
theorem mapSetFlag_filter_notSet (fs : List Nat) :
    (fs.map SupAction.setFlag).filter (fun a => ! isSetFlag a) = [] := by
  induction fs with
  | nil => rfl
  | cons a l ih => simp [isSetFlag, ih]

/-- `enumerate` over the process list yields the join/report pairs for the
consecutive indices starting at `n`. -/
theorem enumFrom_joins (n : Nat) (ps : List Nat) :
    (List.enumFrom n ps).flatMap
        (fun ip => [SupAction.join ip.1, SupAction.report ip.1]) =
      (List.range' n ps.length).flatMap
        (fun i => [SupAction.join i, SupAction.report i]) := by
  induction ps generalizing n with
  | nil => rfl
  | cons a l ih => simp [List.range'_succ, ih]

/-- The joins in the join/report sequence are exactly the indices, once
each, in order. -/
theorem range'_joins_filter (len : Nat) : ∀ s,
    ((List.range' s len).flatMap
        (fun i => [SupAction.join i, SupAction.report i])).filter isJoin =
      (List.range' s len).map SupAction.join := by
  induction len with
  | zero => intro s; rfl
  | succ m ih => intro s; simp [List.range'_succ, isJoin, ih]

/-- The join/report sequence contains no set-flag actions. -/
theorem range'_joins_filter_notSet (len : Nat) : ∀ s,
    ((List.range' s len).flatMap
        (fun i => [SupAction.join i, SupAction.report i])).filter
        (fun a => ! isSetFlag a) =
      (List.range' s len).flatMap
        (fun i => [SupAction.join i, SupAction.report i]) := by
  induction len with
  | zero => intro s; rfl
  | succ m ih =>
    intro s
    simp [List.range'_succ, isSetFlag, ih]
    intro a x _ _ hax
    rcases hax with h | h <;> subst h <;> rfl

/-- C8: `end_measurements_processes` first sets every tracked flag (the
trace's prefix of length `flags.length` is exactly the set-flag actions,
in list order), then joins each tracked process exactly once, strictly in
launch order (the joins are `join 0, ..., join n−1`, once each), with each
join immediately followed by the report of the same index; the modelled
join carries no exit status and no timeout. -/
theorem c8_shutdown_order (flags processes : List Nat) :
    (end_measurements_processes flags processes).take flags.length =
      flags.map SupAction.setFlag ∧
    (end_measurements_processes flags processes).filter isJoin =
      (List.range processes.length).map SupAction.join ∧
    (end_measurements_processes flags processes).filter
        (fun a => ! isSetFlag a) =
      (List.range processes.length).flatMap
        (fun i => [SupAction.join i, SupAction.report i]) := by
  refine ⟨?_, ?_, ?_⟩
  · rw [end_measurements_processes]
    exact List.take_left' (by simp)
  · rw [end_measurements_processes, List.filter_append,
      mapSetFlag_filter_isJoin, List.enum, enumFrom_joins,
      List.range_eq_range']
    simpa using range'_joins_filter processes.length 0
  · rw [end_measurements_processes, List.filter_append,
      mapSetFlag_filter_notSet, List.enum, enumFrom_joins,
      List.range_eq_range']
    simpa using range'_joins_filter_notSet processes.length 0

end PiIMU
